import Mathlib

/-
Verification of the cj-mills/cjm-fasthtml-interactions demo application.

Part 1 models the SSE streaming endpoint of src/demo_app.py
(stream_sse_monitor and its inner async generator event_generator,
lines 1380-1436).

Part 2 models the two pagination route handlers:
pagination_demo in src/demo_app.py (lines 1439-1620) and
index in src/demo/pagination_demo.py (lines 10-320).
-/

namespace SSE

/-- Kind tag of a server-sent event as written on the wire
("event: update" or "event: close"). -/
inductive EventKind where
  | update : EventKind
  | close : EventKind
deriving DecidableEq

/-- An event produced by event_generator.  A loop update carries the loop
counter, the strftime timestamp string of that tick and the computed
progress value; the final completion message carries no counter; the close
event carries its reason string.  Both update forms are tagged "update" on
the wire. -/
inductive Event where
  | update (counter : Nat) (timestamp : String) (progress : Nat) : Event
  | finalUpdate : Event
  | close (reason : String) : Event
deriving DecidableEq

/-- Wire kind of an event: both the loop updates and the final completion
message are emitted with tag "update"; only the cancellation message is
tagged "close". -/
def Event.kind : Event → EventKind
  | .update _ _ _ => .update
  | .finalUpdate => .update
  | .close _ => .close

/-- One step of the generator, as seen from outside: either an event is
emitted (a yield pair in the source) or the coroutine suspends in
asyncio.sleep for the given duration. -/
inductive Action where
  | emit (e : Event) : Action
  | sleep (duration : Nat) : Action
deriving DecidableEq

/-- The body of the while-loop of event_generator in src/demo_app.py.

The Python loop is `counter = 0; while counter < 20: counter += 1; ...`;
here `fuel` is the number of remaining iterations (fuel = 20 - counter, so
the guard counter < 20 is exactly fuel > 0) and `counter` is the Python
variable.  Each iteration increments the counter to c, computes
progress_value = min(c * 5, 100), emits one update event (the pair of
yields "event: update" / "data: ...") and then suspends in
asyncio.sleep(2), the sole suspension point.  `cancelAt = some c` models
asyncio.CancelledError being raised while suspended in the sleep that
follows the c-th update; the except-handler then emits the single close
event with data "Server shutting down" and the generator ends.  When the
loop ends normally the final completion update is emitted (there is no
suspension point after it).  `ts c` is the opaque strftime timestamp
observed at tick c. -/
def tickAux (ts : Nat → String) (cancelAt : Option Nat) : Nat → Nat → List Action
  | 0, _counter => [Action.emit Event.finalUpdate]
  | fuel + 1, counter =>
      let c := counter + 1
      let progress_value := min (c * 5) 100
      Action.emit (Event.update c (ts c) progress_value) ::
        Action.sleep 2 ::
          (if cancelAt = some c then
            [Action.emit (Event.close "Server shutting down")]
          else
            tickAux ts cancelAt fuel c)

/-- Full trace of one run of event_generator: the loop starts with
counter = 0 and runs at most 20 iterations. -/
def actionTrace (ts : Nat → String) (cancelAt : Option Nat) : List Action :=
  tickAux ts cancelAt 20 0

/-- Project the event out of an emit action. -/
def emitted : Action → Option Event
  | .emit e => some e
  | .sleep _ => none

/-- The sequence of events a client receives from one run of
event_generator. -/
def events (ts : Nat → String) (cancelAt : Option Nat) : List Event :=
  (actionTrace ts cancelAt).filterMap emitted

/-- Whether a cancellation parameter actually cancels a run: the generator
has exactly 20 suspension points (the sleep after each update c with
1 <= c <= 20), so only a signal delivered at one of them takes effect. -/
def cancelsRun : Option Nat → Bool
  | none => false
  | some k => decide (1 ≤ k ∧ k ≤ 20)

/-- The update event of tick c, as constructed by the loop body. -/
def mkUpdate (ts : Nat → String) (c : Nat) : Event :=
  Event.update c (ts c) (min (c * 5) 100)

/-- The two actions of one completed tick: emit the update, then sleep 2. -/
def tickActions (ts : Nat → String) (c : Nat) : List Action :=
  [Action.emit (mkUpdate ts c), Action.sleep 2]

/-- Event sequence of a run that completes all 20 ticks. -/
def completedEvents (ts : Nat → String) : List Event :=
  (List.range' 1 20).map (mkUpdate ts) ++ [Event.finalUpdate]

/-- Event sequence of a run cancelled during the sleep after the k-th
update. -/
def cancelledEvents (ts : Nat → String) (k : Nat) : List Event :=
  (List.range' 1 k).map (mkUpdate ts) ++ [Event.close "Server shutting down"]

/-- Counter values carried by the update events of a stream, in order. -/
def extractCounter : Event → Option Nat
  | .update c _ _ => some c
  | _ => none

/-- List of counters of the loop update events, in emission order. -/
def updateCounters (es : List Event) : List Nat :=
  es.filterMap extractCounter

/-- Boolean test: the event is tagged "update" on the wire. -/
def isUpdateKind (e : Event) : Bool :=
  e.kind == EventKind.update

/-- Boolean test: the event is tagged "close" on the wire. -/
def isCloseKind (e : Event) : Bool :=
  e.kind == EventKind.close

/-- Boolean test: the event is a loop update (not the completion message,
not a close). -/
def isLoopUpdate : Event → Bool
  | .update _ _ _ => true
  | _ => false

/-- Progress invariant of a single event: every loop update must carry
progress = min(counter * 5, 100); other events carry no progress. -/
def progressOk : Event → Bool
  | .update c _ p => p == min (c * 5) 100
  | _ => true

/-- Progress invariant at the last tick: an update whose counter is 20
must carry progress 100. -/
def progress20Ok : Event → Bool
  | .update c _ p => !(c == 20) || (p == 100)
  | _ => true

/-- Terminal event in the sense of the spec sentence under examination:
a close event, or the update event carrying sequence number 20. -/
def isTerminal20 (e : Event) : Bool :=
  isCloseKind e ||
    (match e with
     | .update c _ _ => c == 20
     | _ => false)

/-- Terminal event of a session as the code realizes it: the close event
or the final completion update. -/
def isTerminalEvent : Event → Bool
  | .finalUpdate => true
  | .close _ => true
  | _ => false

/-- Checks that no event follows the first event satisfying p: whenever
an element satisfies p, it must be the last element of the list. -/
def noneAfter (p : Event → Bool) : List Event → Bool
  | [] => true
  | e :: rest => if p e then rest.isEmpty else noneAfter p rest

/-- Shape of the client-visible event sequence claimed by the spec:
either 20 loop-update frames followed by the completion frame, or
STRICTLY FEWER than 20 loop-update frames followed by a close frame. -/
def clientShapeClaim (es : List Event) : Bool :=
  es.dropLast.all isLoopUpdate &&
    (match es.getLast? with
     | some Event.finalUpdate => es.dropLast.length == 20
     | some (Event.close _) => decide (es.dropLast.length < 20)
     | _ => false)

/-- Shape of the client-visible event sequence as the code realizes it:
either 20 loop-update frames followed by the completion frame, or AT MOST
20 loop-update frames followed by a close frame. -/
def clientShapeAmended (es : List Event) : Bool :=
  es.dropLast.all isLoopUpdate &&
    (match es.getLast? with
     | some Event.finalUpdate => es.dropLast.length == 20
     | some (Event.close _) => decide (es.dropLast.length ≤ 20)
     | _ => false)

/-- Observable signature of an event, independent of the wall-clock
timestamps and of the opaque payload rendering: the wire kind, the counter
(for loop updates) and the progress value. -/
def sig : Event → EventKind × Option Nat × Option Nat
  | .update c _ p => (EventKind.update, some c, some p)
  | .finalUpdate => (EventKind.update, none, none)
  | .close _ => (EventKind.close, none, none)

/-- The pair of strings yielded by event_generator for one event: the
source yields f"event: update\n" (resp. close) and then
f"data: ...\n\n".  `uc` renders the update Div from (counter, timestamp,
progress) and `fc` is the rendering of the final completion Div; both are
produced by the external view library and treated as opaque. -/
def eventYields (uc : Nat → String → Nat → String) (fc : String) : Event → List String
  | .update c t p => ["event: update\n", "data: " ++ uc c t p ++ "\n\n"]
  | .finalUpdate => ["event: update\n", "data: " ++ fc ++ "\n\n"]
  | .close r => ["event: close\n", "data: " ++ r ++ "\n\n"]

/-- Wire spelling of an event kind; by the type of EventKind it is always
either "update" or "close". -/
def kindStr : EventKind → String
  | .update => "update"
  | .close => "close"

/-- The data payload of an event as written after "data: ": the opaque
rendering of the update Div, the opaque rendering of the completion Div,
or the close reason. -/
def eventData (uc : Nat → String → Nat → String) (fc : String) : Event → String
  | .update c t p => uc c t p
  | .finalUpdate => fc
  | .close r => r

/-- Frame check for one event: the two yielded chunks are exactly
"event: <kind>\n" and "data: <payload>\n\n", with the kind the wire
spelling of the event's kind. -/
def framedOk (uc : Nat → String → Nat → String) (fc : String) (e : Event) : Bool :=
  eventYields uc fc e ==
    ["event: " ++ kindStr e.kind ++ "\n", "data: " ++ eventData uc fc e ++ "\n\n"]

/-- The chunked body of the streaming response: the yielded strings of
event_generator in order. -/
def rawStream (ts : Nat → String) (uc : Nat → String → Nat → String)
    (fc : String) (cancelAt : Option Nat) : List String :=
  ((events ts cancelAt).map (eventYields uc fc)).flatten

/-- Shallow model of starlette.responses.StreamingResponse as constructed
by stream_sse_monitor: a media type, response headers, and the stream of
body chunks. -/
structure StreamingResponse where
  media_type : String
  headers : List (String × String)
  body : List String

/-- The SSE endpoint stream_sse_monitor of src/demo_app.py: it returns one
StreamingResponse over event_generator with media type
"text/event-stream" and the two extra headers. -/
def stream_sse_monitor (ts : Nat → String) (uc : Nat → String → Nat → String)
    (fc : String) (cancelAt : Option Nat) : StreamingResponse :=
  { media_type := "text/event-stream"
    headers := [("Cache-Control", "no-cache"), ("Connection", "keep-alive")]
    body := rawStream ts uc fc cancelAt }

/-- A fixed timestamp source used to instantiate universally quantified
statements at a concrete input. -/
def tsZero : Nat → String := fun _ => ""

/-- A fixed payload renderer used to instantiate universally quantified
statements at a concrete input. -/
def ucZero : Nat → String → Nat → String := fun _ _ _ => ""

end SSE

/-- Python's built-in range(a, b) over integers: the list
[a, a+1, ..., b-1], empty when b <= a. -/
def pyRange (a b : Int) : List Int :=
  (List.range (b - a).toNat).map (fun i : Nat => a + Int.ofNat i)

/-- Style argument of the external PaginationControls component; only
COMPACT is passed explicitly in this repository. -/
inductive PagStyle where
  | compact : PagStyle

/-- Shallow model of the fragment trees built by the pagination route
handlers.  el models a fasthtml tag call (Div, H3, P, Ul, Li, ...) with
its cls attribute (the external class tokens are recorded verbatim as the
source text of the cls expression, identical in both files), an optional
id attribute and its children; text models a literal or interpolated
string child; pagination models a call to the external PaginationControls
component with its arguments in source order (current_page, total_pages,
route_func, target_id, style, prev_text, next_text, button_size,
page_info_format), absent keyword arguments modelled as none. -/
inductive Ft where
  | el (tag : String) (cls : String) (idAttr : Option String) (children : List Ft) : Ft
  | text (s : String) : Ft
  | pagination (current_page : Int) (total_pages : Int) (route_func : Int → String)
      (target_id : String) (style : Option PagStyle)
      (prev_text : Option String) (next_text : Option String)
      (button_size : Option String) (page_info_format : Option String) : Ft

/-- Result of a pagination route handler: either a bare example fragment,
or the full demo page (whose body is assembled and wrapped through the
external handle_htmx_request / wrap_with_layout helpers; its content is
not compared here, only its identity as the full page, so it is recorded
by the data that determines it: the HX-Request flag and the page
number). -/
inductive PaginationResponse where
  | fragment (content : Ft) : PaginationResponse
  | fullPage (hx_request : Bool) (page : Int) : PaginationResponse

/-- Boolean test: the response is a bare example fragment. -/
def isFragment : PaginationResponse → Bool
  | .fragment _ => true
  | .fullPage _ _ => false

namespace Pagination

/-- Sample-data constant of the pagination handlers (identical lines in
src/demo_app.py and src/demo/pagination_demo.py). -/
def total_items : Int := 100

/-- Items shown per page. -/
def items_per_page : Int := 10

/-- total_pages = (total_items + items_per_page - 1) // items_per_page. -/
def total_pages : Int := (total_items + items_per_page - 1) / items_per_page

/-- start_idx = (page - 1) * items_per_page. -/
def start_idx (page : Int) : Int := (page - 1) * items_per_page

/-- end_idx = min(start_idx + items_per_page, total_items). -/
def end_idx (page : Int) : Int := min (start_idx page + items_per_page) total_items

/-- current_items = list(range(start_idx + 1, end_idx + 1)). -/
def current_items (page : Int) : List Int :=
  pyRange (start_idx page + 1) (end_idx page + 1)

end Pagination

namespace DemoApp

/-- The pagination_demo route handler of src/demo_app.py (lines
1439-1620).  request_hx records whether the request carries a truthy
HX-Request header (this handler never reads it for dispatch); example is
the optional example query parameter.  An example fragment is returned
whenever example is "1", "2" or "3", regardless of the HX-Request
header; otherwise the full demo page is returned. -/
def pagination_demo (request_hx : Bool) (page : Int) (exampleParam : Option String) :
    PaginationResponse :=
  let total_items : Int := 100
  let items_per_page : Int := 10
  let total_pages : Int := (total_items + items_per_page - 1) / items_per_page
  let start_idx : Int := (page - 1) * items_per_page
  let end_idx : Int := min (start_idx + items_per_page) total_items
  let current_items : List Int := pyRange (start_idx + 1) (end_idx + 1)
  if exampleParam = some "1" then
    let make_route_ex1 : Int → String :=
      fun p => "/pagination_demo?page=" ++ toString p ++ "&example=1"
    PaginationResponse.fragment (Ft.el "div" "card bg_dui.base_100 p(6)"
      (some "pagination-content-1")
      [Ft.el "div" "card_body bg_dui.base_200" none
        [Ft.el "h3" "font_weight.semibold m.b(2)" none [Ft.text "Item List"],
         Ft.el "p" "m.b(4)" none
           [Ft.text ("Showing items " ++ toString (start_idx + 1) ++ "-" ++
             toString end_idx ++ " of " ++ toString total_items)]],
       Ft.el "div" "grid_display grid_cols._1 grid_cols._2.md grid_cols._3.lg gap._4 m.b(6)" none
         (current_items.map (fun item =>
           Ft.el "div" "card bg_dui.base_100" none
             [Ft.el "div" "card_body" none
               [Ft.el "h4" "font_weight.bold m.b(2)" none
                  [Ft.text ("Item #" ++ toString item)],
                Ft.el "p" "m.b(2)" none
                  [Ft.text ("This is item number " ++ toString item ++ " in the list.")],
                Ft.el "p" "font_size.sm" none
                  [Ft.text ("Page " ++ toString page ++ " of " ++ toString total_pages)]]])),
       Ft.pagination page total_pages make_route_ex1 "pagination-content-1"
         none none none none none])
  else if exampleParam = some "2" then
    let make_route_ex2 : Int → String :=
      fun p => "/pagination_demo?page=" ++ toString p ++ "&example=2"
    PaginationResponse.fragment (Ft.el "div" "card bg_dui.base_100 p(6)"
      (some "pagination-content-2")
      [Ft.el "div" "card_body" none
        [Ft.el "h3" "font_weight.semibold m.b(4)" none [Ft.text "Results List"],
         Ft.el "ul" "m.l(6) m.b(6)" none
           ((pyRange 1 6).map (fun i =>
             Ft.el "li" "m.b(2)" none
               [Ft.text ("Result item " ++ toString i ++ " (Page " ++ toString page ++ ")")]))],
       Ft.pagination page total_pages make_route_ex2 "pagination-content-2"
         (some PagStyle.compact) none none none none])
  else if exampleParam = some "3" then
    let make_route_ex3 : Int → String :=
      fun p => "/pagination_demo?page=" ++ toString p ++ "&example=3"
    PaginationResponse.fragment (Ft.el "div" "card bg_dui.base_100 p(6)"
      (some "pagination-content-3")
      [Ft.el "div" "card_body" none
        [Ft.el "h3" "font_weight.semibold m.b(2)" none [Ft.text "Search Results"],
         Ft.el "p" "m.b(4)" none
           [Ft.text ("Custom button text and smaller size (Page " ++ toString page ++ ")")]],
       Ft.pagination page total_pages make_route_ex3 "pagination-content-3"
         none (some "← Back") (some "Forward →") (some "btn_sizes.sm")
         (some "\x7bcurrent\x7d/\x7btotal\x7d")])
  else
    PaginationResponse.fullPage request_hx page

end DemoApp

namespace PaginationDemoFile

/-- The index route handler of src/demo/pagination_demo.py (lines
10-320).  Identical to DemoApp.pagination_demo except that each example
branch additionally requires a truthy HX-Request header
(example == "1" and request.headers.get('HX-Request')); every request
lacking that header falls through to the full demo page. -/
def index (request_hx : Bool) (page : Int) (exampleParam : Option String) :
    PaginationResponse :=
  let total_items : Int := 100
  let items_per_page : Int := 10
  let total_pages : Int := (total_items + items_per_page - 1) / items_per_page
  let start_idx : Int := (page - 1) * items_per_page
  let end_idx : Int := min (start_idx + items_per_page) total_items
  let current_items : List Int := pyRange (start_idx + 1) (end_idx + 1)
  if exampleParam = some "1" ∧ request_hx = true then
    let make_route_ex1 : Int → String :=
      fun p => "/pagination_demo?page=" ++ toString p ++ "&example=1"
    PaginationResponse.fragment (Ft.el "div" "card bg_dui.base_100 p(6)"
      (some "pagination-content-1")
      [Ft.el "div" "card_body bg_dui.base_200" none
        [Ft.el "h3" "font_weight.semibold m.b(2)" none [Ft.text "Item List"],
         Ft.el "p" "m.b(4)" none
           [Ft.text ("Showing items " ++ toString (start_idx + 1) ++ "-" ++
             toString end_idx ++ " of " ++ toString total_items)]],
       Ft.el "div" "grid_display grid_cols._1 grid_cols._2.md grid_cols._3.lg gap._4 m.b(6)" none
         (current_items.map (fun item =>
           Ft.el "div" "card bg_dui.base_100" none
             [Ft.el "div" "card_body" none
               [Ft.el "h4" "font_weight.bold m.b(2)" none
                  [Ft.text ("Item #" ++ toString item)],
                Ft.el "p" "m.b(2)" none
                  [Ft.text ("This is item number " ++ toString item ++ " in the list.")],
                Ft.el "p" "font_size.sm" none
                  [Ft.text ("Page " ++ toString page ++ " of " ++ toString total_pages)]]])),
       Ft.pagination page total_pages make_route_ex1 "pagination-content-1"
         none none none none none])
  else if exampleParam = some "2" ∧ request_hx = true then
    let make_route_ex2 : Int → String :=
      fun p => "/pagination_demo?page=" ++ toString p ++ "&example=2"
    PaginationResponse.fragment (Ft.el "div" "card bg_dui.base_100 p(6)"
      (some "pagination-content-2")
      [Ft.el "div" "card_body" none
        [Ft.el "h3" "font_weight.semibold m.b(4)" none [Ft.text "Results List"],
         Ft.el "ul" "m.l(6) m.b(6)" none
           ((pyRange 1 6).map (fun i =>
             Ft.el "li" "m.b(2)" none
               [Ft.text ("Result item " ++ toString i ++ " (Page " ++ toString page ++ ")")]))],
       Ft.pagination page total_pages make_route_ex2 "pagination-content-2"
         (some PagStyle.compact) none none none none])
  else if exampleParam = some "3" ∧ request_hx = true then
    let make_route_ex3 : Int → String :=
      fun p => "/pagination_demo?page=" ++ toString p ++ "&example=3"
    PaginationResponse.fragment (Ft.el "div" "card bg_dui.base_100 p(6)"
      (some "pagination-content-3")
      [Ft.el "div" "card_body" none
        [Ft.el "h3" "font_weight.semibold m.b(2)" none [Ft.text "Search Results"],
         Ft.el "p" "m.b(4)" none
           [Ft.text ("Custom button text and smaller size (Page " ++ toString page ++ ")")]],
       Ft.pagination page total_pages make_route_ex3 "pagination-content-3"
         none (some "← Back") (some "Forward →") (some "btn_sizes.sm")
         (some "\x7bcurrent\x7d/\x7btotal\x7d")])
  else
    PaginationResponse.fullPage request_hx page

end PaginationDemoFile

namespace SSE

theorem tickAux_no_cancel (ts : Nat → String) (cancelAt : Option Nat)
    (fuel counter : Nat)
    (h : ∀ c, counter < c → c ≤ counter + fuel → cancelAt ≠ some c) :
    tickAux ts cancelAt fuel counter =
      ((List.range' (counter + 1) fuel).map (tickActions ts)).flatten ++
        [Action.emit Event.finalUpdate] := by
  induction fuel generalizing counter with
  | zero => simp [tickAux]
  | succ n ih =>
      have hne : cancelAt ≠ some (counter + 1) := h (counter + 1) (by omega) (by omega)
      rw [List.range'_succ]
      simp only [tickAux, List.map_cons, List.flatten_cons, tickActions, mkUpdate]
      rw [if_neg hne, ih (counter + 1) (fun c h1 h2 => h c (by omega) (by omega))]
      simp [tickActions, mkUpdate]

theorem tickAux_cancel (ts : Nat → String) (k : Nat)
    (fuel counter : Nat) (h1 : counter < k) (h2 : k ≤ counter + fuel) :
    tickAux ts (some k) fuel counter =
      ((List.range' (counter + 1) (k - counter)).map (tickActions ts)).flatten ++
        [Action.emit (Event.close "Server shutting down")] := by
  induction fuel generalizing counter with
  | zero => omega
  | succ n ih =>
      by_cases hk : k = counter + 1
      · subst hk
        have hr : counter + 1 - counter = 1 := by omega
        rw [hr, List.range'_succ]
        simp [tickAux, tickActions, mkUpdate]
      · have hr : k - counter = (k - (counter + 1)) + 1 := by omega
        rw [hr, List.range'_succ]
        simp only [tickAux, List.map_cons, List.flatten_cons, tickActions, mkUpdate]
        rw [if_neg (by simp; omega), ih (counter + 1) (by omega) (by omega)]
        simp [tickActions, mkUpdate]

theorem filterMap_emitted_ticks (ts : Nat → String) (l : List Nat) :
    ((l.map (tickActions ts)).flatten).filterMap emitted = l.map (mkUpdate ts) := by
  induction l with
  | nil => simp
  | cons c rest ih =>
      simp only [List.map_cons, List.flatten_cons, List.filterMap_append, ih]
      simp [tickActions, emitted]

theorem no_cancel_points (cancelAt : Option Nat) (h : cancelsRun cancelAt = false) :
    ∀ c, 0 < c → c ≤ 0 + 20 → cancelAt ≠ some c := by
  intro c h1 h2
  cases cancelAt with
  | none => simp
  | some k =>
      simp only [cancelsRun, decide_eq_false_iff_not] at h
      intro hk
      injection hk with hk
      omega

theorem events_completed (ts : Nat → String) (cancelAt : Option Nat)
    (h : cancelsRun cancelAt = false) :
    events ts cancelAt = completedEvents ts := by
  rw [events, actionTrace, tickAux_no_cancel ts cancelAt 20 0 (no_cancel_points cancelAt h),
    List.filterMap_append, filterMap_emitted_ticks]
  simp [completedEvents, emitted]

theorem events_cancelled (ts : Nat → String) (k : Nat)
    (h : cancelsRun (some k) = true) :
    events ts (some k) = cancelledEvents ts k := by
  have hk : 1 ≤ k ∧ k ≤ 20 := by simpa [cancelsRun] using h
  rw [events, actionTrace, tickAux_cancel ts k 20 0 (by omega) (by omega),
    List.filterMap_append, filterMap_emitted_ticks]
  simp [cancelledEvents, emitted]

theorem events_shape (ts : Nat → String) (cancelAt : Option Nat) :
    events ts cancelAt = completedEvents ts ∨
      ∃ k, cancelAt = some k ∧ 1 ≤ k ∧ k ≤ 20 ∧
        events ts cancelAt = cancelledEvents ts k := by
  by_cases h : cancelsRun cancelAt = true
  · cases cancelAt with
    | none => simp [cancelsRun] at h
    | some k =>
        have hk : 1 ≤ k ∧ k ≤ 20 := by simpa [cancelsRun] using h
        exact Or.inr ⟨k, rfl, hk.1, hk.2, events_cancelled ts k h⟩
  · exact Or.inl (events_completed ts cancelAt (by simpa using h))

end SSE

namespace SSE

theorem all_isUpdateKind_map (ts : Nat → String) (l : List Nat) :
    (l.map (mkUpdate ts)).all isUpdateKind = true := by
  simp [List.all_eq_true, isUpdateKind, mkUpdate, Event.kind]

theorem all_isLoopUpdate_map (ts : Nat → String) (l : List Nat) :
    (l.map (mkUpdate ts)).all isLoopUpdate = true := by
  simp [List.all_eq_true, isLoopUpdate, mkUpdate]

theorem countP_isCloseKind_map (ts : Nat → String) (l : List Nat) :
    (l.map (mkUpdate ts)).countP isCloseKind = 0 := by
  rw [List.countP_eq_zero]
  simp [isCloseKind, mkUpdate, Event.kind]

theorem updateCounters_map (ts : Nat → String) (l : List Nat) :
    updateCounters (l.map (mkUpdate ts)) = l := by
  induction l with
  | nil => rfl
  | cons c rest ih =>
      simp only [List.map_cons, updateCounters, List.filterMap_cons, extractCounter, mkUpdate]
      simpa [updateCounters] using ih

/-- C1: every completed (non-cancelled) run of event_generator emits
exactly 21 events, all tagged "update" on the wire (the 20 loop updates
plus the final completion update), the counter values of the loop updates
are exactly the list 1..20 (strictly increasing by 1), and no "close"
event occurs anywhere in the stream. -/
theorem completed_run_events (ts : Nat → String) (cancelAt : Option Nat)
    (h : cancelsRun cancelAt = false) :
    (events ts cancelAt).length = 21 ∧
      (events ts cancelAt).all isUpdateKind = true ∧
      updateCounters (events ts cancelAt) = List.range' 1 20 ∧
      (events ts cancelAt).countP isCloseKind = 0 := by
  rw [events_completed ts cancelAt h, completedEvents]
  refine ⟨?_, ?_, ?_, ?_⟩
  · simp
  · simp only [List.all_append, all_isUpdateKind_map]
    rfl
  · rw [updateCounters, List.filterMap_append]
    have h1 := updateCounters_map ts (List.range' 1 20)
    rw [updateCounters] at h1
    rw [h1]
    simp [extractCounter]
  · rw [List.countP_append, countP_isCloseKind_map]
    rfl

/-- Witness for completed_run_events: the run with the constant timestamp
source and no cancellation signal. -/
theorem completed_run_events_witness :
    (events tsZero none).length = 21 ∧
      (events tsZero none).all isUpdateKind = true ∧
      updateCounters (events tsZero none) = List.range' 1 20 ∧
      (events tsZero none).countP isCloseKind = 0 :=
  completed_run_events tsZero none (by decide)

/-- C2: in every cancelled run the emitted events are exactly the loop
updates with counters 1..k (k the tick whose sleep received the
cancellation) followed by one close event with data
"Server shutting down"; that close event is the last event of the stream,
exactly one close event occurs, and no event of any kind follows it. -/
theorem cancelled_run_events (ts : Nat → String) (k : Nat)
    (h : cancelsRun (some k) = true) :
    events ts (some k) =
        (List.range' 1 k).map (mkUpdate ts) ++ [Event.close "Server shutting down"] ∧
      (events ts (some k)).getLast? = some (Event.close "Server shutting down") ∧
      (events ts (some k)).countP isCloseKind = 1 := by
  have he := events_cancelled ts k h
  rw [cancelledEvents] at he
  refine ⟨he, ?_, ?_⟩
  · rw [he]
    exact List.getLast?_concat _
  · rw [he, List.countP_append, countP_isCloseKind_map]
    rfl

/-- Witness for cancelled_run_events: cancellation received during the
sleep after the 7th update, so the client sees exactly the updates 1..7
followed directly by the single close event. -/
theorem cancelled_run_events_witness :
    events tsZero (some 7) =
        (List.range' 1 7).map (mkUpdate tsZero) ++ [Event.close "Server shutting down"] ∧
      (events tsZero (some 7)).getLast? = some (Event.close "Server shutting down") ∧
      (events tsZero (some 7)).countP isCloseKind = 1 :=
  cancelled_run_events tsZero 7 (by decide)

end SSE

namespace SSE

theorem progressOk_mkUpdate (ts : Nat → String) (c : Nat) :
    progressOk (mkUpdate ts c) = true := by
  simp [progressOk, mkUpdate]

theorem progress20Ok_mkUpdate (ts : Nat → String) (c : Nat) :
    progress20Ok (mkUpdate ts c) = true := by
  by_cases hc : c = 20
  · subst hc
    simp [progress20Ok, mkUpdate]
  · simp [progress20Ok, mkUpdate, hc]

/-- C3: in every run, every update event with counter n carries
progress = min(n * 5, 100), and every update event with counter 20
carries progress 100. -/
theorem progress_formula (ts : Nat → String) (cancelAt : Option Nat) :
    (events ts cancelAt).all progressOk = true ∧
      (events ts cancelAt).all progress20Ok = true := by
  rcases events_shape ts cancelAt with h | ⟨k, _, _, _, h⟩ <;>
    rw [h] <;>
    constructor <;>
    simp only [completedEvents, cancelledEvents, List.all_append, Bool.and_eq_true,
      List.all_eq_true] <;>
    constructor <;>
    first
      | (intro e he
         simp only [List.mem_map] at he
         obtain ⟨c, _, rfl⟩ := he
         first
           | exact progressOk_mkUpdate ts c
           | exact progress20Ok_mkUpdate ts c)
      | (intro e he
         simp only [List.mem_singleton] at he
         subst he
         rfl)

end SSE

namespace SSE

theorem noneAfter_append_last (p : Event → Bool) (l : List Event) (x : Event)
    (h : ∀ e ∈ l, p e = false) : noneAfter p (l ++ [x]) = true := by
  induction l with
  | nil => cases hpx : p x <;> simp [noneAfter, hpx]
  | cons e rest ih =>
      have he : p e = false := h e (by simp)
      simp only [List.cons_append, noneAfter, he, Bool.false_eq_true, if_false]
      exact ih (fun e' h' => h e' (by simp [h']))

theorem countP_append_last_one (p : Event → Bool) (l : List Event) (x : Event)
    (hl : ∀ e ∈ l, p e = false) (hx : p x = true) :
    (l ++ [x]).countP p = 1 := by
  rw [List.countP_append, List.countP_eq_zero.mpr (by simpa using hl)]
  simp [List.countP_cons, hx]

theorem isTerminalEvent_mkUpdate (ts : Nat → String) (c : Nat) :
    isTerminalEvent (mkUpdate ts c) = false := rfl

/-- C4 counterexample: take the completed run with the constant timestamp
source.  Exactly one of its events satisfies the claimed terminal
predicate (close, or the update carrying counter 20), namely the 20th
update, yet an event is still emitted after it: the final completion
update.  So "no events are sent after that terminal event" fails on the
code as the claim words it. -/
theorem terminal20_counterexample :
    (events tsZero none).countP isTerminal20 = 1 ∧
      noneAfter isTerminal20 (events tsZero none) = false := by
  constructor
  · decide
  · decide

/-- C4 (amended): in every run exactly one terminal event is sent — the
close event or the final completion update — and no event of any kind is
sent after that terminal event. -/
theorem one_terminal_event (ts : Nat → String) (cancelAt : Option Nat) :
    (events ts cancelAt).countP isTerminalEvent = 1 ∧
      noneAfter isTerminalEvent (events ts cancelAt) = true := by
  have hmap : ∀ (l : List Nat) (e : Event), e ∈ l.map (mkUpdate ts) →
      isTerminalEvent e = false := by
    intro l e he
    simp only [List.mem_map] at he
    obtain ⟨c, _, rfl⟩ := he
    exact isTerminalEvent_mkUpdate ts c
  rcases events_shape ts cancelAt with h | ⟨k, _, _, _, h⟩ <;> rw [h]
  · exact ⟨countP_append_last_one _ _ _ (hmap _) rfl,
      noneAfter_append_last _ _ _ (hmap _)⟩
  · exact ⟨countP_append_last_one _ _ _ (hmap _) rfl,
      noneAfter_append_last _ _ _ (hmap _)⟩

/-- C5: in every completed run, the generator's full action trace is: for
each counter value 1..20 in order (the counter starts at 0 and is
incremented at the top of each tick), one emission of the update event of
that counter followed by one suspension of 2 time units (the sole
suspension point of the loop), and after the 20th tick one final
completion update, after which the trace ends with no further ticks. -/
theorem generator_trace (ts : Nat → String) (cancelAt : Option Nat)
    (h : cancelsRun cancelAt = false) :
    actionTrace ts cancelAt =
      ((List.range' 1 20).map (tickActions ts)).flatten ++
        [Action.emit Event.finalUpdate] := by
  rw [actionTrace]
  exact tickAux_no_cancel ts cancelAt 20 0 (no_cancel_points cancelAt h)

/-- Witness for generator_trace: the run with the constant timestamp
source and no cancellation signal. -/
theorem generator_trace_witness :
    actionTrace tsZero none =
      ((List.range' 1 20).map (tickActions tsZero)).flatten ++
        [Action.emit Event.finalUpdate] :=
  generator_trace tsZero none (by decide)

end SSE

namespace SSE

theorem framedOk_true (uc : Nat → String → Nat → String) (fc : String) (e : Event) :
    framedOk uc fc e = true := by
  cases e <;> exact beq_iff_eq.mpr rfl

/-- C6: stream_sse_monitor returns one streaming response whose media
type is text/event-stream, whose headers are Cache-Control: no-cache and
Connection: keep-alive, whose body is exactly the per-event yield chunks
of event_generator in order, and every emitted event is framed as the
chunk pair "event: <kind>\n", "data: <payload>\n\n" with the kind the
wire spelling ("update" or "close") of the event's kind. -/
theorem sse_response_format (ts : Nat → String) (uc : Nat → String → Nat → String)
    (fc : String) (cancelAt : Option Nat) :
    (stream_sse_monitor ts uc fc cancelAt).media_type = "text/event-stream" ∧
      (stream_sse_monitor ts uc fc cancelAt).headers =
        [("Cache-Control", "no-cache"), ("Connection", "keep-alive")] ∧
      (stream_sse_monitor ts uc fc cancelAt).body =
        ((events ts cancelAt).map (eventYields uc fc)).flatten ∧
      (events ts cancelAt).all (framedOk uc fc) = true :=
  ⟨rfl, rfl, rfl, List.all_eq_true.mpr (fun e _ => framedOk_true uc fc e)⟩

end SSE

namespace SSE

/-- C7 counterexample: a run cancelled during the sleep that follows the
20th update emits 20 loop-update frames followed by a close frame, which
is neither of the two claimed shapes (20 updates then completion frame,
or STRICTLY FEWER than 20 updates then a close frame). -/
theorem client_shape_counterexample :
    clientShapeClaim (events tsZero (some 20)) = false := by decide

theorem isLoopUpdate_map_all (ts : Nat → String) (l : List Nat) :
    ∀ e ∈ l.map (mkUpdate ts), isLoopUpdate e = true := by
  intro e he
  simp only [List.mem_map] at he
  obtain ⟨c, _, rfl⟩ := he
  rfl

/-- C7 (amended): in every run the client-visible event sequence has one
of exactly two shapes: 20 loop-update frames followed by the completion
frame, or at most 20 loop-update frames followed by a close frame. -/
theorem client_shape (ts : Nat → String) (cancelAt : Option Nat) :
    clientShapeAmended (events ts cancelAt) = true := by
  rcases events_shape ts cancelAt with h | ⟨k, _, _, hk2, h⟩ <;> rw [h]
  · rw [clientShapeAmended, completedEvents, List.dropLast_concat,
      List.getLast?_concat]
    simp [all_isLoopUpdate_map]
  · rw [clientShapeAmended, cancelledEvents, List.dropLast_concat,
      List.getLast?_concat]
    simp only [all_isLoopUpdate_map, List.length_map, List.length_range',
      Bool.true_and]
    exact decide_eq_true hk2

/-- C8: every invocation of the endpoint is a fresh, independent session:
the event stream is a pure function of the connection's own inputs, the
first emitted event of every run is the update with counter 1 (the
counter starts at 0 and is incremented before the first emission) and
progress 5, and the sequence of (kind, counter, progress) signatures is
the same for any two invocations whose cancellation point coincides,
whatever timestamps their clocks return — so no prior or concurrent
invocation can change another invocation's event sequence. -/
theorem fresh_session (ts1 ts2 : Nat → String) (cancelAt : Option Nat) :
    (events ts1 cancelAt).map sig = (events ts2 cancelAt).map sig ∧
      (events ts1 cancelAt).head? = some (Event.update 1 (ts1 1) 5) := by
  have hmapsig : ∀ (ts ts' : Nat → String) (l : List Nat),
      (l.map (mkUpdate ts)).map sig = (l.map (mkUpdate ts')).map sig := by
    intro ts ts' l
    rw [List.map_map, List.map_map]
    rfl
  by_cases hc : cancelsRun cancelAt = true
  · cases cancelAt with
    | none => simp [cancelsRun] at hc
    | some k =>
        have hk : 1 ≤ k ∧ k ≤ 20 := by simpa [cancelsRun] using hc
        rw [events_cancelled ts1 k hc, events_cancelled ts2 k hc]
        constructor
        · rw [cancelledEvents, cancelledEvents, List.map_append, List.map_append,
            hmapsig ts1 ts2]
        · obtain ⟨k', rfl⟩ : ∃ k', k = k' + 1 := ⟨k - 1, by omega⟩
          rw [cancelledEvents, List.range'_succ]
          rfl
  · have hc' : cancelsRun cancelAt = false := by simpa using hc
    rw [events_completed ts1 cancelAt hc', events_completed ts2 cancelAt hc']
    constructor
    · rw [completedEvents, completedEvents, List.map_append, List.map_append,
        hmapsig ts1 ts2]
    · rfl

end SSE

theorem pyRange_length (a b : Int) : (pyRange a b).length = (b - a).toNat := by
  rw [pyRange, List.length_map, List.length_range]

theorem pyRange_eq_nil (a b : Int) (h : (b - a).toNat = 0) : pyRange a b = [] := by
  simp [pyRange, h]

/-- C9: with 100 total items and 10 items per page, total_pages is 10;
for every integer page >= 1 the displayed items are exactly the
consecutive integers from (page-1)*10+1 up to min(page*10, 100); every
page in 1..10 displays exactly 10 items, and every page >= 11 displays
none. -/
theorem pagination_items (page : Int) (h : 1 ≤ page) :
    Pagination.total_pages = 10 ∧
      Pagination.current_items page =
        pyRange ((page - 1) * 10 + 1) (min (page * 10) 100 + 1) ∧
      (page ≤ 10 → (Pagination.current_items page).length = 10) ∧
      (11 ≤ page → Pagination.current_items page = []) := by
  have hitems : Pagination.current_items page =
      pyRange ((page - 1) * 10 + 1) (min ((page - 1) * 10 + 10) 100 + 1) := rfl
  have h10 : (page - 1) * 10 + 10 = page * 10 := by ring
  refine ⟨by decide, ?_, ?_, ?_⟩
  · rw [hitems, h10]
  · intro hle
    rw [hitems, pyRange_length]
    omega
  · intro hge
    rw [hitems]
    apply pyRange_eq_nil
    have : (page - 1) * 10 = page * 10 - 10 := by ring
    omega

/-- Witness for pagination_items: page 3 shows the ten items 21..30, and
page 13 shows nothing. -/
theorem pagination_items_witness :
    Pagination.total_pages = 10 ∧
      Pagination.current_items 3 = pyRange 21 31 ∧
      (Pagination.current_items 3).length = 10 ∧
      Pagination.current_items 13 = [] :=
  ⟨(pagination_items 3 (by decide)).1,
   (pagination_items 3 (by decide)).2.1,
   (pagination_items 3 (by decide)).2.2.1 (by decide),
   (pagination_items 13 (by decide)).2.2.2 (by decide)⟩

theorem index_no_hx (page : Int) (exampleParam : Option String) :
    PaginationDemoFile.index false page exampleParam =
      PaginationResponse.fullPage false page := by
  simp [PaginationDemoFile.index]

/-- C10: for HTMX requests (HX-Request header present) with example
parameter "1", "2" or "3" and the same page, the two handlers —
pagination_demo in src/demo_app.py and index in
src/demo/pagination_demo.py — return the identical example fragment;
in src/demo/pagination_demo.py a fragment is returned only when the
HX-Request header is present, and every request lacking the header
receives the full demo page whatever the example parameter. -/
theorem pagination_handlers_agree (page : Int) (exampleParam : Option String) (hx : Bool) :
    (exampleParam = some "1" ∨ exampleParam = some "2" ∨ exampleParam = some "3" →
      DemoApp.pagination_demo true page exampleParam =
          PaginationDemoFile.index true page exampleParam ∧
        isFragment (PaginationDemoFile.index true page exampleParam) = true) ∧
      (isFragment (PaginationDemoFile.index hx page exampleParam) = true → hx = true) ∧
      PaginationDemoFile.index false page exampleParam =
        PaginationResponse.fullPage false page := by
  refine ⟨?_, ?_, index_no_hx page exampleParam⟩
  · rintro (rfl | rfl | rfl)
    · exact ⟨rfl, rfl⟩
    · exact ⟨rfl, rfl⟩
    · exact ⟨rfl, rfl⟩
  · cases hx with
    | true => intro _; rfl
    | false =>
        intro hfrag
        rw [index_no_hx page exampleParam] at hfrag
        exact absurd hfrag (by simp [isFragment])

/-- Witness for pagination_handlers_agree: with the HX-Request header and
example "1" on page 2 both handlers return the same fragment, and without
the header example "2" on page 5 yields the full demo page. -/
theorem pagination_handlers_agree_witness :
    (DemoApp.pagination_demo true 2 (some "1") =
        PaginationDemoFile.index true 2 (some "1") ∧
      isFragment (PaginationDemoFile.index true 2 (some "1")) = true) ∧
      PaginationDemoFile.index false 5 (some "2") =
        PaginationResponse.fullPage false 5 :=
  ⟨(pagination_handlers_agree 2 (some "1") true).1 (Or.inl rfl),
   (pagination_handlers_agree 5 (some "2") false).2.2⟩
